import Mathlib

/-!
A shallow embedding of the wgpu render host in `src/src/lib.rs` (crate
`learn-rust-wgpu`).  GPU handles (device, queue, buffers, shader modules) are
opaque; everything the host itself computes — surface-format selection, the
surface configuration, resize, the render-pipeline descriptor, the texture
copy layout, the event-loop recovery policy and the input handlers — is
translated directly from the source.  `f64` values (colors, cursor positions)
are modelled as rationals; machine integers (`u32`, `usize`) as `Nat` (none of
the arithmetic involved can overflow: the only additions are `+ 1` on an index
bounded by a list length).
-/

set_option autoImplicit false

namespace RenderHost

/-- A surface texture format.  `srgb` abstracts the `format.describe().srgb`
flag read at line 122 of the source; `tag` stands for the concrete wgpu
`TextureFormat` variant and only serves to tell formats apart. -/
structure TextureFormat where
  tag : Nat
  srgb : Bool
  deriving DecidableEq, Repr

/-- `wgpu::PresentMode`. -/
inductive PresentMode where
  | AutoVsync
  | AutoNoVsync
  | Fifo
  | FifoRelaxed
  | Immediate
  | Mailbox
  deriving DecidableEq, Repr

/-- `wgpu::CompositeAlphaMode`, kept abstract: the host never inspects it,
it only copies `surface_caps.alpha_modes[0]` into the configuration. -/
structure AlphaMode where
  tag : Nat
  deriving DecidableEq, Repr

/-- The only texture usage the surface configuration uses (line 128). -/
inductive TextureUsages where
  | RENDER_ATTACHMENT
  deriving DecidableEq, Repr

/-- `wgpu::SurfaceConfiguration` (lines 126-138). -/
structure SurfaceConfiguration where
  usage : TextureUsages
  format : TextureFormat
  width : Nat
  height : Nat
  present_mode : PresentMode
  alpha_mode : AlphaMode
  view_formats : List TextureFormat
  deriving DecidableEq, Repr

/-- The presentation surface.  Its one observable piece of host-visible state
is the configuration last applied through `surface.configure(&device, &config)`
(lines 139 and 309). -/
structure Surface where
  applied_config : SurfaceConfiguration
  deriving DecidableEq, Repr

/-- `wgpu::SurfaceCapabilities` as read at line 115: the supported formats,
present modes and alpha modes reported for the adapter. -/
structure SurfaceCapabilities where
  formats : List TextureFormat
  present_modes : List PresentMode
  alpha_modes : List AlphaMode
  deriving DecidableEq, Repr

/-- `winit::dpi::PhysicalSize<u32>`. -/
structure PhysicalSize where
  width : Nat
  height : Nat
  deriving DecidableEq, Repr

/-- `wgpu::SurfaceError`, the error type of `surface.get_current_texture()`. -/
inductive SurfaceError where
  | Timeout
  | Outdated
  | Lost
  | OutOfMemory
  deriving DecidableEq, Repr

/-- `wgpu::Color` (4 × `f64`, modelled as rationals). -/
structure Color where
  r : ℚ
  g : ℚ
  b : ℚ
  a : ℚ
  deriving DecidableEq, Repr

/-- The `BLUE` constant (lines 10-15). -/
def BLUE : Color :=
  { r := 1/10, g := 2/10, b := 3/10, a := 1 }

/-- The `INDICES` constant (lines 45-49): nine `u16` indices, three triangles. -/
def INDICES : List Nat :=
  [0, 1, 4, 1, 2, 4, 2, 3, 4]

/-- `wgpu::VertexFormat`, restricted to the variants the source uses. -/
inductive VertexFormat where
  | Float32x2
  | Float32x3
  deriving DecidableEq, Repr

/-- `wgpu::VertexAttribute`. -/
structure VertexAttribute where
  offset : Nat
  shader_location : Nat
  format : VertexFormat
  deriving DecidableEq, Repr

/-- `wgpu::VertexStepMode`. -/
inductive VertexStepMode where
  | Vertex
  | Instance
  deriving DecidableEq, Repr

/-- `wgpu::VertexBufferLayout`. -/
structure VertexBufferLayout where
  array_stride : Nat
  step_mode : VertexStepMode
  attributes : List VertexAttribute
  deriving DecidableEq, Repr

/-- `Vertex::descriptor()` (lines 444-471).  `size_of::<Vertex>()` is
3 × 4 + 2 × 4 = 20 bytes and `size_of::<[f32; 3]>()` is 12 bytes. -/
def Vertex.descriptor : VertexBufferLayout :=
  { array_stride := 20
    step_mode := .Vertex
    attributes :=
      [ { offset := 0, shader_location := 0, format := .Float32x3 },
        { offset := 12, shader_location := 1, format := .Float32x2 } ] }

/-- `wgpu::PrimitiveTopology`. -/
inductive PrimitiveTopology where
  | PointList
  | LineList
  | LineStrip
  | TriangleList
  | TriangleStrip
  deriving DecidableEq, Repr

/-- `wgpu::FrontFace`. -/
inductive FrontFace where
  | Ccw
  | Cw
  deriving DecidableEq, Repr

/-- `wgpu::Face`. -/
inductive Face where
  | Front
  | Back
  deriving DecidableEq, Repr

/-- `wgpu::PolygonMode`. -/
inductive PolygonMode where
  | Fill
  | Line
  | Point
  deriving DecidableEq, Repr

/-- `wgpu::IndexFormat`. -/
inductive IndexFormat where
  | Uint16
  | Uint32
  deriving DecidableEq, Repr

/-- `wgpu::BlendState`, as its named preset constants. -/
inductive BlendState where
  | REPLACE
  | ALPHA_BLENDING
  | PREMULTIPLIED_ALPHA_BLENDING
  deriving DecidableEq, Repr

/-- `wgpu::ColorTargetState`.  `write_mask` is the `ColorWrites` bit set;
`ColorWrites::ALL` is `0xF = 15`. -/
structure ColorTargetState where
  format : TextureFormat
  blend : Option BlendState
  write_mask : Nat
  deriving DecidableEq, Repr

/-- `wgpu::PrimitiveState`. -/
structure PrimitiveState where
  topology : PrimitiveTopology
  strip_index_format : Option IndexFormat
  front_face : FrontFace
  cull_mode : Option Face
  polygon_mode : PolygonMode
  unclipped_depth : Bool
  conservative : Bool
  deriving DecidableEq, Repr

/-- `wgpu::MultisampleState`.  `mask: !0` on a `u64` is `2 ^ 64 - 1`. -/
structure MultisampleState where
  count : Nat
  mask : Nat
  alpha_to_coverage_enabled : Bool
  deriving DecidableEq, Repr

/-- `wgpu::VertexState`: shader module (opaque handle), entry point, layouts. -/
structure VertexState where
  module : Nat
  entry_point : String
  buffers : List VertexBufferLayout
  deriving DecidableEq, Repr

/-- `wgpu::FragmentState`. -/
structure FragmentState where
  module : Nat
  entry_point : String
  targets : List (Option ColorTargetState)
  deriving DecidableEq, Repr

/-- A compiled render pipeline, identified with the descriptor it was built
from (`wgpu::RenderPipelineDescriptor`); the `depth_stencil` payload is opaque
because the source always passes `None`. -/
structure RenderPipeline where
  vertex : VertexState
  fragment : Option FragmentState
  primitive : PrimitiveState
  depth_stencil : Option Unit
  multisample : MultisampleState
  multiview : Option Nat
  deriving DecidableEq, Repr

/-- `create_pipeline` (lines 376-432); the device and the pipeline layout are
opaque handles and are omitted, the shader module is an opaque `Nat`. -/
def create_pipeline (shader : Nat) (surface_config : SurfaceConfiguration) :
    RenderPipeline :=
  { vertex :=
      { module := shader
        entry_point := "vs_main"
        buffers := [Vertex.descriptor] }
    fragment := some
      { module := shader
        entry_point := "fs_main"
        targets :=
          [some { format := surface_config.format
                  blend := some .REPLACE
                  write_mask := 15 }] }
    primitive :=
      { topology := .TriangleList
        strip_index_format := none
        front_face := .Ccw
        cull_mode := some .Back
        polygon_mode := .Fill
        unclipped_depth := false
        conservative := false }
    depth_stencil := none
    multisample :=
      { count := 1
        mask := 2 ^ 64 - 1
        alpha_to_coverage_enabled := false }
    multiview := none }

/-- `wgpu::ImageDataLayout` (lines 183-187). -/
structure ImageDataLayout where
  offset : Nat
  bytes_per_row : Option Nat
  rows_per_image : Option Nat
  deriving DecidableEq, Repr

/-- `wgpu::Extent3d`. -/
structure Extent3d where
  width : Nat
  height : Nat
  depth_or_array_layers : Nat
  deriving DecidableEq, Repr

/-- The single transfer issued by `queue.write_texture` (lines 173-189):
the pixel bytes together with their layout and the copy extent. -/
structure TextureCopy where
  data : List Nat
  layout : ImageDataLayout
  size : Extent3d
  deriving DecidableEq, Repr

/-- Modelled from the spec: the validation of the texture upload.  The copy
layout and extent are exactly those built in `State::new` (lines 145-189):
offset 0, `bytes_per_row = 4 * width`, `rows_per_image = height`, extent
`width × height × 1`.  The rejection rule itself is not in `src/` — it is
enforced by the external GPU queue that receives the copy — so it follows the
spec: "The pixel byte buffer's length must equal width×height×4; mismatches
are a caller contract violation (undefined/rejected)", rejected before any
copy is attempted. -/
def uploadTexture (pixel_bytes : List Nat) (width height : Nat) :
    Except String TextureCopy :=
  if pixel_bytes.length = width * height * 4 then
    .ok { data := pixel_bytes
          layout :=
            { offset := 0
              bytes_per_row := some (4 * width)
              rows_per_image := some height }
          size := { width := width, height := height, depth_or_array_layers := 1 } }
  else
    .error ("pixel byte buffer length must equal width times height times 4")

/-- The surface-format selection in `State::new` (lines 118-123):
`surface_caps.formats.iter().copied().find(|f| f.describe().srgb)
.unwrap_or(surface_caps.formats[0])`.  Indexing `formats[0]` panics on an
empty list, hence the nonemptiness hypothesis. -/
def chooseSurfaceFormat (formats : List TextureFormat) (h : formats ≠ []) :
    TextureFormat :=
  (formats.find? fun f => f.srgb).getD (formats.head h)

/-- The `State` struct (lines 51-65).  The window is represented by its id;
the device, queue, buffers and bind group are opaque handles carrying no
host-visible state and are omitted.  `color` is the clear color, `size` the
stored window size. -/
structure State where
  window_id : Nat
  surface : Surface
  surface_config : SurfaceConfiguration
  size : PhysicalSize
  color : Color
  render_pipelines : List RenderPipeline
  active_pipeline : Nat
  num_indices : Nat
  deriving DecidableEq, Repr

/-- `State::new` (lines 68-298), restricted to the host-visible state: the
surface format is chosen from the capabilities, the configuration takes the
window's inner size and the first present/alpha mode, the configuration is
applied to the surface, one pipeline is built, the clear color starts as
`BLUE` and the active pipeline index as 0. -/
def State.new (window_id : Nat) (size : PhysicalSize) (caps : SurfaceCapabilities)
    (hf : caps.formats ≠ []) (hp : caps.present_modes ≠ [])
    (ha : caps.alpha_modes ≠ []) (shader : Nat) : State :=
  let surface_format := chooseSurfaceFormat caps.formats hf
  let surface_config : SurfaceConfiguration :=
    { usage := .RENDER_ATTACHMENT
      format := surface_format
      width := size.width
      height := size.height
      present_mode := caps.present_modes.head hp
      alpha_mode := caps.alpha_modes.head ha
      view_formats := [] }
  { window_id := window_id
    surface := { applied_config := surface_config }
    surface_config := surface_config
    size := size
    color := BLUE
    render_pipelines := [create_pipeline shader surface_config]
    active_pipeline := 0
    num_indices := INDICES.length }

/-- `State::resize` (lines 304-311): guarded on both dimensions being
positive; updates the stored size and the configuration width/height together
and reapplies the configuration to the surface, else does nothing. -/
def State.resize (s : State) (new_size : PhysicalSize) : State :=
  if 0 < new_size.width ∧ 0 < new_size.height then
    let cfg :=
      { s.surface_config with width := new_size.width, height := new_size.height }
    { s with
        size := new_size
        surface_config := cfg
        surface := { applied_config := cfg } }
  else
    s

/-- The window events the `run` loop matches on (lines 507-553), with the
payloads the handlers read.  Cursor positions are `f64`, modelled as ℚ. -/
inductive WindowEvent where
  | CloseRequested
  | KeyboardEscapePressed
  | KeyboardSpacePressed
  | Resized (physical_size : PhysicalSize)
  | ScaleFactorChanged (new_inner_size : PhysicalSize)
  | CursorMoved (x : ℚ) (y : ℚ)
  | Other
  deriving DecidableEq, Repr

/-- `winit::event_loop::ControlFlow`, restricted to the two values the host
uses: keep polling, or exit the loop. -/
inductive ControlFlow where
  | Poll
  | Exit
  deriving DecidableEq, Repr

/-- `State::input` (lines 316-318): no event is consumed, always `false`. -/
def State.input (_s : State) (_event : WindowEvent) : Bool :=
  false

/-- `State::update` (lines 320-322): nothing to do yet. -/
def State.update (s : State) : State :=
  s

/-- What one successful frame draws (lines 344-366): a pass clearing to the
current color, the pipeline looked up at the active index, and one indexed
draw over `0..num_indices`.  The lookup `render_pipelines[active_pipeline]`
is partial in the source (it panics out of bounds), hence an `Option`. -/
structure FrameDraw where
  clear_color : Color
  pipeline : Option RenderPipeline
  index_count : Nat
  deriving DecidableEq, Repr

/-- `State::render` (lines 324-373).  Acquiring the frame from the surface is
the first action and the only fallible one; its outcome is an input here.  On
failure the `?` operator returns the error at once, before anything else runs;
on success the pass is recorded and submitted, reading but never writing the
`State`. -/
def State.render (s : State) (acquire : Except SurfaceError Unit) :
    State × Except SurfaceError FrameDraw :=
  match acquire with
  | .error e => (s, .error e)
  | .ok _ =>
    (s, .ok { clear_color := s.color
              pipeline := s.render_pipelines[s.active_pipeline]?
              index_count := s.num_indices })

/-- The `Event::RedrawRequested` arm of the host loop (lines 484-495):
`state.update()`, then `state.render()`, then the recovery policy —
`Ok` → nothing; `Lost` → `state.resize(state.size)`; `OutOfMemory` →
`ControlFlow::Exit`; any other error → log it (`eprintln!`) and move on. -/
def handleRedraw (s : State) (acquire : Except SurfaceError Unit)
    (control_flow : ControlFlow) : State × ControlFlow :=
  let s0 := s.update
  match s0.render acquire with
  | (s1, .ok _) => (s1, control_flow)
  | (s1, .error .Lost) => (s1.resize s1.size, control_flow)
  | (s1, .error .OutOfMemory) => (s1, .Exit)
  | (s1, .error _) => (s1, control_flow)

/-- The `Event::WindowEvent` match (lines 507-553): close request or Escape
exit the loop; Space advances the active pipeline by one modulo the number of
pipelines; resize and scale-factor changes call `State::resize`; cursor moves
set the red and green clear-color channels to the cursor position divided by
the stored window size, keeping blue and alpha. -/
def handleWindowEvent (s : State) (control_flow : ControlFlow) :
    WindowEvent → State × ControlFlow
  | .CloseRequested => (s, .Exit)
  | .KeyboardEscapePressed => (s, .Exit)
  | .KeyboardSpacePressed =>
    ({ s with active_pipeline := (s.active_pipeline + 1) % s.render_pipelines.length },
     control_flow)
  | .Resized physical_size => (s.resize physical_size, control_flow)
  | .ScaleFactorChanged new_inner_size => (s.resize new_inner_size, control_flow)
  | .CursorMoved x y =>
    let percent_of_screen_width := x / (s.size.width : ℚ)
    let percent_of_screen_height := y / (s.size.height : ℚ)
    ({ s with color :=
        { s.color with r := percent_of_screen_width, g := percent_of_screen_height } },
     control_flow)
  | .Other => (s, control_flow)

/-- The events delivered to the closure in `run` (lines 483-558), each
carrying the id of the window it is for (the loop compares it against
`state.window().id()`).  A redraw request carries the outcome of the frame
acquisition the induced `render` call will observe. -/
inductive Event where
  | RedrawRequested (window_id : Nat) (acquire : Except SurfaceError Unit)
  | MainEventsCleared
  | WindowEvt (window_id : Nat) (event : WindowEvent)
  | Other

/-- One iteration of the host event loop (lines 483-558).  Events for another
window fall through to the final wildcard arm; `MainEventsCleared` only
requests a redraw from the OS, changing no host state; window events first go
through `State::input`, which never consumes them. -/
def step (p : State × ControlFlow) (event : Event) : State × ControlFlow :=
  match event with
  | .RedrawRequested wid acquire =>
    if wid = p.1.window_id then handleRedraw p.1 acquire p.2 else p
  | .MainEventsCleared => p
  | .WindowEvt wid we =>
    if wid = p.1.window_id then
      if p.1.input we then p else handleWindowEvent p.1 p.2 we
    else p
  | .Other => p

/-- Folding the host loop over a list of delivered events. -/
def processEvents (p : State × ControlFlow) (events : List Event) :
    State × ControlFlow :=
  events.foldl step p

/-- The active pipeline index is in bounds for the pipeline list. -/
def PipelineIndexInv (s : State) : Prop :=
  s.active_pipeline < s.render_pipelines.length

/-- The stored window size and the surface configuration agree. -/
def SizeConfigInv (s : State) : Prop :=
  s.surface_config.width = s.size.width ∧ s.surface_config.height = s.size.height

/-- A concrete format list for witnesses: the first format is not sRGB, the
next two are. -/
def sampleFormats : List TextureFormat :=
  [{ tag := 0, srgb := false }, { tag := 1, srgb := true }, { tag := 2, srgb := true }]

/-- Concrete surface capabilities for witnesses. -/
def sampleCaps : SurfaceCapabilities :=
  { formats := sampleFormats
    present_modes := [.Fifo]
    alpha_modes := [{ tag := 0 }] }

/-- A concrete initial state for witnesses: an 800 × 600 window. -/
def sampleState : State :=
  State.new 7 { width := 800, height := 600 } sampleCaps (by decide) (by decide)
    (by decide) 0

/-- Overwriting the width and height of a configuration with their current
values is the identity. -/
theorem SurfaceConfiguration.update_self (c : SurfaceConfiguration) (w h : Nat)
    (hw : c.width = w) (hh : c.height = h) :
    { c with width := w, height := h } = c := by
  cases c
  cases hw
  cases hh
  rfl

/-- `State::resize` never touches the pipeline list. -/
theorem State.resize_render_pipelines (s : State) (ns : PhysicalSize) :
    (s.resize ns).render_pipelines = s.render_pipelines := by
  unfold State.resize
  split <;> rfl

/-- `State::resize` never touches the active pipeline index. -/
theorem State.resize_active_pipeline (s : State) (ns : PhysicalSize) :
    (s.resize ns).active_pipeline = s.active_pipeline := by
  unfold State.resize
  split <;> rfl

/-- `State::resize` keeps the stored size and the configured size in
agreement: it either updates both or neither. -/
theorem State.resize_size_config (s : State) (ns : PhysicalSize)
    (h : SizeConfigInv s) : SizeConfigInv (s.resize ns) := by
  unfold State.resize
  split
  · exact ⟨rfl, rfl⟩
  · exact h

/-- C3: resizing with a zero dimension leaves the surface configuration and
the stored window size exactly unchanged; resizing with both dimensions
positive sets the configuration width and height to exactly the new values
and leaves format, present mode and alpha mode unchanged. -/
theorem resize_spec (s : State) (ns : PhysicalSize) :
    ((ns.width = 0 ∨ ns.height = 0) →
      (s.resize ns).surface_config = s.surface_config ∧ (s.resize ns).size = s.size)
    ∧ (0 < ns.width → 0 < ns.height →
      (s.resize ns).surface_config.width = ns.width
      ∧ (s.resize ns).surface_config.height = ns.height
      ∧ (s.resize ns).surface_config.format = s.surface_config.format
      ∧ (s.resize ns).surface_config.present_mode = s.surface_config.present_mode
      ∧ (s.resize ns).surface_config.alpha_mode = s.surface_config.alpha_mode
      ∧ (s.resize ns).size = ns) := by
  constructor
  · intro h0
    have hcond : ¬(0 < ns.width ∧ 0 < ns.height) := by
      rcases h0 with h | h <;> omega
    unfold State.resize
    rw [if_neg hcond]
    exact ⟨rfl, rfl⟩
  · intro hw hh
    unfold State.resize
    rw [if_pos ⟨hw, hh⟩]
    exact ⟨rfl, rfl, rfl, rfl, rfl, rfl⟩

/-- Witness for C3 at the spec's test vector: from 800 × 600, resizing to
(0, 300) is a no-op and resizing to (640, 480) sets exactly those values. -/
theorem resize_spec_witness :
    ((sampleState.resize { width := 0, height := 300 }).surface_config
        = sampleState.surface_config
      ∧ (sampleState.resize { width := 0, height := 300 }).size = sampleState.size)
    ∧ (sampleState.resize { width := 640, height := 480 }).surface_config.width = 640
    ∧ (sampleState.resize { width := 640, height := 480 }).surface_config.height = 480 :=
  ⟨(resize_spec sampleState { width := 0, height := 300 }).1 (Or.inl rfl),
   ((resize_spec sampleState { width := 640, height := 480 }).2 (by decide) (by decide)).1,
   ((resize_spec sampleState { width := 640, height := 480 }).2 (by decide) (by decide)).2.1⟩

/-- C4: the texture upload is rejected (before any copy is built) exactly
when the pixel byte count differs from width × height × 4; on a match it is a
single transfer with row stride 4 × width bytes, `rows_per_image = height`
and extent width × height × 1. -/
theorem upload_texture_length_check (pixel_bytes : List Nat) (width height : Nat) :
    (pixel_bytes.length ≠ width * height * 4 →
      uploadTexture pixel_bytes width height
        = .error ("pixel byte buffer length must equal width times height times 4"))
    ∧ (pixel_bytes.length = width * height * 4 →
      uploadTexture pixel_bytes width height
        = .ok { data := pixel_bytes
                layout :=
                  { offset := 0
                    bytes_per_row := some (4 * width)
                    rows_per_image := some height }
                size := { width := width, height := height, depth_or_array_layers := 1 } }) := by
  constructor
  · intro hne
    unfold uploadTexture
    rw [if_neg hne]
  · intro heq
    unfold uploadTexture
    rw [if_pos heq]

/-- Witness for C4: a 1 × 1 texture accepts exactly 4 bytes and rejects 1. -/
theorem upload_texture_length_check_witness :
    uploadTexture [9, 9, 9, 9] 1 1
      = .ok { data := [9, 9, 9, 9]
              layout := { offset := 0, bytes_per_row := some 4, rows_per_image := some 1 }
              size := { width := 1, height := 1, depth_or_array_layers := 1 } }
    ∧ uploadTexture [9] 1 1
      = .error ("pixel byte buffer length must equal width times height times 4") :=
  ⟨(upload_texture_length_check [9, 9, 9, 9] 1 1).2 rfl,
   (upload_texture_length_check [9] 1 1).1 (by decide)⟩

/-- C5: a cursor move to (x, y) sets the clear color's red channel to
x / width and green to y / height of the stored window size, leaves blue and
alpha unchanged, and applies no clamping (the quotient is stored as-is); at
window size 800 × 600 and cursor (400, 300) both channels become 1/2. -/
theorem cursor_moved_color (s : State) (cf : ControlFlow) (x y : ℚ) :
    ((handleWindowEvent s cf (.CursorMoved x y)).1).color.r = x / (s.size.width : ℚ)
    ∧ ((handleWindowEvent s cf (.CursorMoved x y)).1).color.g = y / (s.size.height : ℚ)
    ∧ ((handleWindowEvent s cf (.CursorMoved x y)).1).color.b = s.color.b
    ∧ ((handleWindowEvent s cf (.CursorMoved x y)).1).color.a = s.color.a
    ∧ ((handleWindowEvent s cf (.CursorMoved x y)).1).size = s.size
    ∧ ((handleWindowEvent sampleState cf (.CursorMoved 400 300)).1).color.r = 1/2
    ∧ ((handleWindowEvent sampleState cf (.CursorMoved 400 300)).1).color.g = 1/2
    ∧ ((handleWindowEvent sampleState cf (.CursorMoved 400 300)).1).color.b
        = sampleState.color.b
    ∧ ((handleWindowEvent sampleState cf (.CursorMoved 400 300)).1).color.a
        = sampleState.color.a := by
  refine ⟨rfl, rfl, rfl, rfl, rfl, ?_, ?_, rfl, rfl⟩
  · show (400 : ℚ) / ((800 : Nat) : ℚ) = 1/2
    norm_num
  · show (300 : ℚ) / ((600 : Nat) : ℚ) = 1/2
    norm_num

/-- C7: every pipeline built by `create_pipeline` has triangle-list topology,
counter-clockwise front face, back-face culling, a single color target with
replace blending whose format is the surface format, no depth/stencil, and
sample count 1. -/
theorem create_pipeline_fixed_function (shader : Nat) (cfg : SurfaceConfiguration) :
    (create_pipeline shader cfg).primitive.topology = .TriangleList
    ∧ (create_pipeline shader cfg).primitive.front_face = .Ccw
    ∧ (create_pipeline shader cfg).primitive.cull_mode = some .Back
    ∧ (create_pipeline shader cfg).fragment = some
        { module := shader
          entry_point := "fs_main"
          targets :=
            [some { format := cfg.format, blend := some .REPLACE, write_mask := 15 }] }
    ∧ (create_pipeline shader cfg).depth_stencil = none
    ∧ (create_pipeline shader cfg).multisample.count = 1 :=
  ⟨rfl, rfl, rfl, rfl, rfl, rfl⟩

/-- C8: when frame acquisition fails, `State::render` itself mutates nothing:
clear color, active pipeline index, stored window size, surface configuration
and surface are all unchanged, and the error is returned to the caller. -/
theorem render_failure_no_mutation (s : State) (acquire : Except SurfaceError Unit)
    (e : SurfaceError) (h : (s.render acquire).2 = .error e) :
    (s.render acquire).1.color = s.color
    ∧ (s.render acquire).1.active_pipeline = s.active_pipeline
    ∧ (s.render acquire).1.size = s.size
    ∧ (s.render acquire).1.surface_config = s.surface_config
    ∧ (s.render acquire).1.surface = s.surface := by
  cases acquire <;> exact ⟨rfl, rfl, rfl, rfl, rfl⟩

/-- Witness for C8 at a concrete lost-surface acquisition. -/
theorem render_failure_no_mutation_witness :
    (sampleState.render (.error .Lost)).1.color = sampleState.color
    ∧ (sampleState.render (.error .Lost)).1.active_pipeline = sampleState.active_pipeline
    ∧ (sampleState.render (.error .Lost)).1.size = sampleState.size
    ∧ (sampleState.render (.error .Lost)).1.surface_config = sampleState.surface_config
    ∧ (sampleState.render (.error .Lost)).1.surface = sampleState.surface :=
  render_failure_no_mutation sampleState (.error .Lost) .Lost rfl

/-- C1: the host loop's recovery from a failed frame acquisition.  On `Lost`
the state is resized with the current size — which, when the stored size is
positive and agrees with the configuration, reapplies the current surface
configuration unchanged — the frame is skipped and the loop keeps running.
On `OutOfMemory` the loop sets `ControlFlow::Exit` and stops.  On any other
error the state is untouched, the frame is skipped (the error is only
logged), and the loop keeps running so the next cycle retries. -/
theorem host_loop_failure_policy (s : State) (cf : ControlFlow)
    (hw : 0 < s.size.width) (hh : 0 < s.size.height)
    (hcw : s.surface_config.width = s.size.width)
    (hch : s.surface_config.height = s.size.height) :
    (handleRedraw s (.error .Lost) cf).1 = s.resize s.size
    ∧ (handleRedraw s (.error .Lost) cf).1.surface_config = s.surface_config
    ∧ (handleRedraw s (.error .Lost) cf).1.surface.applied_config = s.surface_config
    ∧ (handleRedraw s (.error .Lost) cf).2 = cf
    ∧ handleRedraw s (.error .OutOfMemory) cf = (s, .Exit)
    ∧ (∀ e : SurfaceError, e ≠ .Lost → e ≠ .OutOfMemory →
        handleRedraw s (.error e) cf = (s, cf)) := by
  have hsc : (s.resize s.size).surface_config = s.surface_config := by
    unfold State.resize
    rw [if_pos ⟨hw, hh⟩]
    exact SurfaceConfiguration.update_self s.surface_config _ _ hcw hch
  have hap : (s.resize s.size).surface.applied_config = s.surface_config := by
    unfold State.resize
    rw [if_pos ⟨hw, hh⟩]
    exact SurfaceConfiguration.update_self s.surface_config _ _ hcw hch
  refine ⟨rfl, hsc, hap, rfl, rfl, ?_⟩
  intro e hL hM
  cases e with
  | Timeout => rfl
  | Outdated => rfl
  | Lost => exact absurd rfl hL
  | OutOfMemory => exact absurd rfl hM

/-- Witness for C1 at the concrete 800 × 600 state: Lost keeps the
configuration and keeps polling, OutOfMemory exits, Timeout is skipped. -/
theorem host_loop_failure_policy_witness :
    (handleRedraw sampleState (.error .Lost) .Poll).1.surface_config
        = sampleState.surface_config
    ∧ (handleRedraw sampleState (.error .Lost) .Poll).1.surface.applied_config
        = sampleState.surface_config
    ∧ (handleRedraw sampleState (.error .Lost) .Poll).2 = .Poll
    ∧ handleRedraw sampleState (.error .OutOfMemory) .Poll = (sampleState, .Exit)
    ∧ handleRedraw sampleState (.error .Timeout) .Poll = (sampleState, .Poll) :=
  ⟨(host_loop_failure_policy sampleState .Poll (by decide) (by decide) (by decide)
      (by decide)).2.1,
   (host_loop_failure_policy sampleState .Poll (by decide) (by decide) (by decide)
      (by decide)).2.2.1,
   (host_loop_failure_policy sampleState .Poll (by decide) (by decide) (by decide)
      (by decide)).2.2.2.1,
   (host_loop_failure_policy sampleState .Poll (by decide) (by decide) (by decide)
      (by decide)).2.2.2.2.1,
   (host_loop_failure_policy sampleState .Poll (by decide) (by decide) (by decide)
      (by decide)).2.2.2.2.2 .Timeout (by decide) (by decide)⟩

/-- Iterating the Space handler: the pipeline list is untouched and after k
presses the active index is (start + k) mod the number of pipelines. -/
theorem space_iterate (cf : ControlFlow) :
    ∀ (k : Nat) (s : State), s.active_pipeline < s.render_pipelines.length →
      ((fun t : State => (handleWindowEvent t cf .KeyboardSpacePressed).1)^[k] s).render_pipelines
          = s.render_pipelines
      ∧ ((fun t : State => (handleWindowEvent t cf .KeyboardSpacePressed).1)^[k] s).active_pipeline
          = (s.active_pipeline + k) % s.render_pipelines.length := by
  intro k
  induction k with
  | zero =>
    intro s hs
    exact ⟨rfl, (Nat.mod_eq_of_lt hs).symm⟩
  | succ k ih =>
    intro s hs
    have hpos : 0 < s.render_pipelines.length := Nat.lt_of_le_of_lt (Nat.zero_le _) hs
    have hTp : ((handleWindowEvent s cf .KeyboardSpacePressed).1).render_pipelines
        = s.render_pipelines := rfl
    have hTa : ((handleWindowEvent s cf .KeyboardSpacePressed).1).active_pipeline
        = (s.active_pipeline + 1) % s.render_pipelines.length := rfl
    have hlt : ((handleWindowEvent s cf .KeyboardSpacePressed).1).active_pipeline
        < ((handleWindowEvent s cf .KeyboardSpacePressed).1).render_pipelines.length := by
      rw [hTa, hTp]
      exact Nat.mod_lt _ hpos
    obtain ⟨h1, h2⟩ := ih ((handleWindowEvent s cf .KeyboardSpacePressed).1) hlt
    simp only [Function.iterate_succ_apply]
    constructor
    · rw [h1]
      exact hTp
    · rw [h2, hTa, hTp, Nat.mod_add_mod]
      congr 1
      omega

/-- C2: one Space press sets the active pipeline index to (i + 1) mod N for a
registry of N ≥ 1 pipelines, the result is always below N, and N presses
return the index to where it started. -/
theorem cycle_active_pipeline (s : State) (cf : ControlFlow)
    (hN : 1 ≤ s.render_pipelines.length)
    (hi : s.active_pipeline < s.render_pipelines.length) :
    ((handleWindowEvent s cf .KeyboardSpacePressed).1).active_pipeline
        = (s.active_pipeline + 1) % s.render_pipelines.length
    ∧ ((handleWindowEvent s cf .KeyboardSpacePressed).1).active_pipeline
        < s.render_pipelines.length
    ∧ ((fun t : State => (handleWindowEvent t cf .KeyboardSpacePressed).1)^[
        s.render_pipelines.length] s).active_pipeline = s.active_pipeline := by
  refine ⟨rfl, Nat.mod_lt _ (Nat.lt_of_lt_of_le Nat.zero_lt_one hN), ?_⟩
  obtain ⟨h1, h2⟩ := space_iterate cf s.render_pipelines.length s hi
  rw [h2, Nat.add_mod_right]
  exact Nat.mod_eq_of_lt hi

/-- Witness for C2 at the concrete one-pipeline state. -/
theorem cycle_active_pipeline_witness :
    ((handleWindowEvent sampleState .Poll .KeyboardSpacePressed).1).active_pipeline
        = (sampleState.active_pipeline + 1) % sampleState.render_pipelines.length
    ∧ ((handleWindowEvent sampleState .Poll .KeyboardSpacePressed).1).active_pipeline
        < sampleState.render_pipelines.length
    ∧ ((fun t : State => (handleWindowEvent t .Poll .KeyboardSpacePressed).1)^[
        sampleState.render_pipelines.length] sampleState).active_pipeline
        = sampleState.active_pipeline :=
  cycle_active_pipeline sampleState .Poll (by decide) (by decide)

/-- If position i of the list satisfies the predicate and every earlier
position does not, then `find?` returns exactly the element at i. -/
theorem find?_at_first_true (p : TextureFormat → Bool) :
    ∀ (l : List TextureFormat) (i : Nat) (f : TextureFormat),
      l.get? i = some f → p f = true →
      (∀ j : Nat, j < i → ∀ g : TextureFormat, l.get? j = some g → p g = false) →
      l.find? p = some f := by
  intro l
  induction l with
  | nil =>
    intro i f hget
    simp at hget
  | cons a t ih =>
    intro i f hget hpf hbefore
    cases i with
    | zero =>
      have haf : a = f := by simpa using hget
      subst haf
      exact List.find?_cons_of_pos _ hpf
    | succ i =>
      have hpa : p a = false := hbefore 0 (Nat.succ_pos _) a rfl
      rw [List.find?_cons_of_neg _ (by simp [hpa])]
      exact ih i f (by simpa using hget) hpf
        (fun j hj g hg => hbefore (j + 1) (Nat.succ_lt_succ hj) g (by simpa using hg))

/-- C6: the chosen surface format is the first supported format marked sRGB:
if some position i holds an sRGB format and every earlier position does not,
that format is chosen; if no supported format is sRGB, the first supported
format is chosen. -/
theorem surface_format_selection (formats : List TextureFormat) (h : formats ≠ []) :
    ((∀ f ∈ formats, f.srgb = false) → chooseSurfaceFormat formats h = formats.head h)
    ∧ (∀ (i : Nat) (f : TextureFormat), formats.get? i = some f → f.srgb = true →
        (∀ j : Nat, j < i → ∀ g : TextureFormat, formats.get? j = some g → g.srgb = false) →
        chooseSurfaceFormat formats h = f) := by
  constructor
  · intro hall
    unfold chooseSurfaceFormat
    have hnone : formats.find? (fun f => f.srgb) = none := by
      rw [List.find?_eq_none]
      intro x hx
      simp [hall x hx]
    rw [hnone]
    rfl
  · intro i f hget hsrgb hbefore
    unfold chooseSurfaceFormat
    rw [find?_at_first_true _ formats i f hget hsrgb hbefore]
    rfl

/-- Witness for C6: over the sample capabilities the non-sRGB format at
position 0 is passed over and the sRGB format at position 1 is chosen. -/
theorem surface_format_selection_witness :
    chooseSurfaceFormat sampleFormats (by decide) = { tag := 1, srgb := true } :=
  (surface_format_selection sampleFormats (by decide)).2 1 { tag := 1, srgb := true }
    (by decide) rfl
    (by
      intro j hj g hg
      have hj0 : j = 0 := Nat.lt_one_iff.mp hj
      subst hj0
      have hga : g = { tag := 0, srgb := false } := by
        simpa [sampleFormats] using hg.symm
      rw [hga])

/-- After a redraw request the state is either untouched or resized with its
own current size (the `Lost` recovery); no other mutation is possible. -/
theorem handleRedraw_cases (s : State) (acquire : Except SurfaceError Unit)
    (cf : ControlFlow) :
    (handleRedraw s acquire cf).1 = s
    ∨ (handleRedraw s acquire cf).1 = s.resize s.size := by
  cases acquire with
  | ok u => exact Or.inl rfl
  | error e =>
    cases e with
    | Timeout => exact Or.inl rfl
    | Outdated => exact Or.inl rfl
    | Lost => exact Or.inr rfl
    | OutOfMemory => exact Or.inl rfl

/-- One loop iteration keeps the active pipeline index in bounds. -/
theorem step_pipeline_inv (p : State × ControlFlow) (e : Event)
    (h : PipelineIndexInv p.1) : PipelineIndexInv (step p e).1 := by
  obtain ⟨s, cf⟩ := p
  cases e with
  | RedrawRequested wid acquire =>
    simp only [step]
    split
    · rcases handleRedraw_cases s acquire cf with h1 | h1 <;> rw [h1]
      · exact h
      · unfold PipelineIndexInv at h ⊢
        rw [State.resize_active_pipeline, State.resize_render_pipelines]
        exact h
    · exact h
  | MainEventsCleared => exact h
  | WindowEvt wid we =>
    simp only [step]
    split
    · show PipelineIndexInv (handleWindowEvent s cf we).1
      cases we with
      | CloseRequested => exact h
      | KeyboardEscapePressed => exact h
      | KeyboardSpacePressed =>
        unfold PipelineIndexInv at h ⊢
        show (s.active_pipeline + 1) % s.render_pipelines.length
            < s.render_pipelines.length
        exact Nat.mod_lt _ (Nat.lt_of_le_of_lt (Nat.zero_le _) h)
      | Resized ps =>
        show PipelineIndexInv (s.resize ps)
        unfold PipelineIndexInv at h ⊢
        rw [State.resize_active_pipeline, State.resize_render_pipelines]
        exact h
      | ScaleFactorChanged ps =>
        show PipelineIndexInv (s.resize ps)
        unfold PipelineIndexInv at h ⊢
        rw [State.resize_active_pipeline, State.resize_render_pipelines]
        exact h
      | CursorMoved x y => exact h
      | Other => exact h
    · exact h
  | Other => exact h

/-- One loop iteration keeps the stored size and the configuration equal. -/
theorem step_size_inv (p : State × ControlFlow) (e : Event)
    (h : SizeConfigInv p.1) : SizeConfigInv (step p e).1 := by
  obtain ⟨s, cf⟩ := p
  cases e with
  | RedrawRequested wid acquire =>
    simp only [step]
    split
    · rcases handleRedraw_cases s acquire cf with h1 | h1 <;> rw [h1]
      · exact h
      · exact State.resize_size_config s s.size h
    · exact h
  | MainEventsCleared => exact h
  | WindowEvt wid we =>
    simp only [step]
    split
    · show SizeConfigInv (handleWindowEvent s cf we).1
      cases we with
      | CloseRequested => exact h
      | KeyboardEscapePressed => exact h
      | KeyboardSpacePressed => exact h
      | Resized ps => exact State.resize_size_config s ps h
      | ScaleFactorChanged ps => exact State.resize_size_config s ps h
      | CursorMoved x y => exact h
      | Other => exact h
    · exact h
  | Other => exact h

/-- Bounds on the active index survive any sequence of loop iterations. -/
theorem processEvents_pipeline_inv (events : List Event) :
    ∀ p : State × ControlFlow, PipelineIndexInv p.1 →
      PipelineIndexInv (processEvents p events).1 := by
  induction events with
  | nil => exact fun p h => h
  | cons e t ih => exact fun p h => ih (step p e) (step_pipeline_inv p e h)

/-- Size/configuration agreement survives any sequence of loop iterations. -/
theorem processEvents_size_inv (events : List Event) :
    ∀ p : State × ControlFlow, SizeConfigInv p.1 →
      SizeConfigInv (processEvents p events).1 := by
  induction events with
  | nil => exact fun p h => h
  | cons e t ih => exact fun p h => ih (step p e) (step_size_inv p e h)

/-- C9: the active pipeline index starts at 0 over a nonempty (one-element)
pipeline list, and after any sequence of processed events it stays strictly
below the number of registered pipelines, so the pipeline lookup performed by
the render pass is always in bounds. -/
theorem active_pipeline_always_in_bounds (window_id : Nat) (size : PhysicalSize)
    (caps : SurfaceCapabilities) (hf : caps.formats ≠ []) (hp : caps.present_modes ≠ [])
    (ha : caps.alpha_modes ≠ []) (shader : Nat) (cf : ControlFlow)
    (events : List Event) :
    (State.new window_id size caps hf hp ha shader).active_pipeline = 0
    ∧ 0 < (State.new window_id size caps hf hp ha shader).render_pipelines.length
    ∧ (processEvents (State.new window_id size caps hf hp ha shader, cf) events).1.active_pipeline
        < (processEvents (State.new window_id size caps hf hp ha shader, cf) events).1.render_pipelines.length
    ∧ ((processEvents (State.new window_id size caps hf hp ha shader, cf) events).1.render_pipelines[
        (processEvents (State.new window_id size caps hf hp ha shader, cf) events).1.active_pipeline]?).isSome := by
  have hinv : PipelineIndexInv (processEvents (State.new window_id size caps hf hp ha shader, cf) events).1 :=
    processEvents_pipeline_inv events (State.new window_id size caps hf hp ha shader, cf)
      Nat.zero_lt_one
  refine ⟨rfl, Nat.zero_lt_one, hinv, ?_⟩
  rw [List.getElem?_eq_getElem hinv]
  rfl

/-- Witness for C9: from the concrete initial state, a Space press, a resize,
a lost-surface redraw and a cursor move leave the index in bounds. -/
theorem active_pipeline_always_in_bounds_witness :
    (State.new 7 { width := 800, height := 600 } sampleCaps (by decide) (by decide)
        (by decide) 0).active_pipeline = 0
    ∧ 0 < (State.new 7 { width := 800, height := 600 } sampleCaps (by decide) (by decide)
        (by decide) 0).render_pipelines.length
    ∧ (processEvents (State.new 7 { width := 800, height := 600 } sampleCaps (by decide)
          (by decide) (by decide) 0, .Poll)
        [.WindowEvt 7 .KeyboardSpacePressed, .WindowEvt 7 (.Resized { width := 640, height := 480 }),
         .RedrawRequested 7 (.error .Lost), .WindowEvt 7 (.CursorMoved 5 5)]).1.active_pipeline
        < (processEvents (State.new 7 { width := 800, height := 600 } sampleCaps (by decide)
          (by decide) (by decide) 0, .Poll)
        [.WindowEvt 7 .KeyboardSpacePressed, .WindowEvt 7 (.Resized { width := 640, height := 480 }),
         .RedrawRequested 7 (.error .Lost), .WindowEvt 7 (.CursorMoved 5 5)]).1.render_pipelines.length
    ∧ ((processEvents (State.new 7 { width := 800, height := 600 } sampleCaps (by decide)
          (by decide) (by decide) 0, .Poll)
        [.WindowEvt 7 .KeyboardSpacePressed, .WindowEvt 7 (.Resized { width := 640, height := 480 }),
         .RedrawRequested 7 (.error .Lost), .WindowEvt 7 (.CursorMoved 5 5)]).1.render_pipelines[
        (processEvents (State.new 7 { width := 800, height := 600 } sampleCaps (by decide)
          (by decide) (by decide) 0, .Poll)
        [.WindowEvt 7 .KeyboardSpacePressed, .WindowEvt 7 (.Resized { width := 640, height := 480 }),
         .RedrawRequested 7 (.error .Lost), .WindowEvt 7 (.CursorMoved 5 5)]).1.active_pipeline]?).isSome :=
  active_pipeline_always_in_bounds 7 { width := 800, height := 600 } sampleCaps
    (by decide) (by decide) (by decide) 0 .Poll
    [.WindowEvt 7 .KeyboardSpacePressed, .WindowEvt 7 (.Resized { width := 640, height := 480 }),
     .RedrawRequested 7 (.error .Lost), .WindowEvt 7 (.CursorMoved 5 5)]

/-- C10: after initialization and after any sequence of processed events, the
stored window size and the surface configuration dimensions agree: resize
updates both together or neither, and no other event touches either. -/
theorem size_and_config_agree (window_id : Nat) (size : PhysicalSize)
    (caps : SurfaceCapabilities) (hf : caps.formats ≠ []) (hp : caps.present_modes ≠ [])
    (ha : caps.alpha_modes ≠ []) (shader : Nat) (cf : ControlFlow)
    (events : List Event) :
    (State.new window_id size caps hf hp ha shader).surface_config.width
        = (State.new window_id size caps hf hp ha shader).size.width
    ∧ (State.new window_id size caps hf hp ha shader).surface_config.height
        = (State.new window_id size caps hf hp ha shader).size.height
    ∧ (processEvents (State.new window_id size caps hf hp ha shader, cf) events).1.surface_config.width
        = (processEvents (State.new window_id size caps hf hp ha shader, cf) events).1.size.width
    ∧ (processEvents (State.new window_id size caps hf hp ha shader, cf) events).1.surface_config.height
        = (processEvents (State.new window_id size caps hf hp ha shader, cf) events).1.size.height := by
  have hinv : SizeConfigInv (processEvents (State.new window_id size caps hf hp ha shader, cf) events).1 :=
    processEvents_size_inv events (State.new window_id size caps hf hp ha shader, cf)
      ⟨rfl, rfl⟩
  exact ⟨rfl, rfl, hinv.1, hinv.2⟩

/-- Witness for C10: the same concrete event sequence as for the index bound,
checked for the size/configuration agreement. -/
theorem size_and_config_agree_witness :
    (processEvents (State.new 7 { width := 800, height := 600 } sampleCaps (by decide)
          (by decide) (by decide) 0, .Poll)
        [.WindowEvt 7 .KeyboardSpacePressed, .WindowEvt 7 (.Resized { width := 640, height := 480 }),
         .RedrawRequested 7 (.error .Lost), .WindowEvt 7 (.CursorMoved 5 5)]).1.surface_config.width
        = (processEvents (State.new 7 { width := 800, height := 600 } sampleCaps (by decide)
          (by decide) (by decide) 0, .Poll)
        [.WindowEvt 7 .KeyboardSpacePressed, .WindowEvt 7 (.Resized { width := 640, height := 480 }),
         .RedrawRequested 7 (.error .Lost), .WindowEvt 7 (.CursorMoved 5 5)]).1.size.width
    ∧ (processEvents (State.new 7 { width := 800, height := 600 } sampleCaps (by decide)
          (by decide) (by decide) 0, .Poll)
        [.WindowEvt 7 .KeyboardSpacePressed, .WindowEvt 7 (.Resized { width := 640, height := 480 }),
         .RedrawRequested 7 (.error .Lost), .WindowEvt 7 (.CursorMoved 5 5)]).1.surface_config.height
        = (processEvents (State.new 7 { width := 800, height := 600 } sampleCaps (by decide)
          (by decide) (by decide) 0, .Poll)
        [.WindowEvt 7 .KeyboardSpacePressed, .WindowEvt 7 (.Resized { width := 640, height := 480 }),
         .RedrawRequested 7 (.error .Lost), .WindowEvt 7 (.CursorMoved 5 5)]).1.size.height :=
  ⟨(size_and_config_agree 7 { width := 800, height := 600 } sampleCaps (by decide)
      (by decide) (by decide) 0 .Poll
      [.WindowEvt 7 .KeyboardSpacePressed, .WindowEvt 7 (.Resized { width := 640, height := 480 }),
       .RedrawRequested 7 (.error .Lost), .WindowEvt 7 (.CursorMoved 5 5)]).2.2.1,
   (size_and_config_agree 7 { width := 800, height := 600 } sampleCaps (by decide)
      (by decide) (by decide) 0 .Poll
      [.WindowEvt 7 .KeyboardSpacePressed, .WindowEvt 7 (.Resized { width := 640, height := 480 }),
       .RedrawRequested 7 (.error .Lost), .WindowEvt 7 (.CursorMoved 5 5)]).2.2.2⟩

end RenderHost

